import Mathlib

/-!
Verification development for the forensic-keystore-cracker batch
orchestration core: a shallow embedding, in Lean 4, of the session/task
persistence layer (`src/progress_manager.py`), the status-line decoding and
exit-outcome handling of the engine supervisor (`src/cracker_hashcat_gpu.py`,
`src/ultimate_batch_cracker.py`), and the parallel extraction worker
(`src/analyzer_crack_result.py`), together with proofs and refutations of
the specified properties.

Modelling conventions:
* Python dynamic values that travel through JSON documents are embedded as
  the inductive type `PyVal` (None / bool / int / float / str / list / dict).
  Python floats are represented exactly by rationals (`ℚ`); the claims under
  study only ever exercise integer and simple decimal values.
* ISO-8601 timestamp strings (`datetime.now().isoformat()` et al.) are
  represented by their numeric timestamps (`ℚ`); `isoformat` /
  `fromisoformat` form a bijection, so equality of the strings coincides
  with equality of the represented instants.
* Every operation that reads the wall clock in Python takes the current
  time as an explicit argument `now : ℚ`.
* `hashlib.md5(...).hexdigest()` is a stdlib primitive, not repository
  code; functions that need it take the digest function as an explicit
  argument, so every theorem quantifies over it.
* Fallible Python code (functions whose exceptions are caught by a caller)
  returns `Option` / `Except`.
-/

/-- Embedded Python/JSON value. `rat` stands for Python `float`
(represented exactly; see the header note). -/
inductive PyVal where
  | none
  | bool (b : Bool)
  | int (n : Int)
  | rat (q : ℚ)
  | str (s : String)
  | list (xs : List PyVal)
  | dict (kvs : List (String × PyVal))

/-- Python truthiness (`bool(v)`) of an embedded value. -/
def pyTruthy : PyVal → Bool
  | PyVal.none => false
  | PyVal.bool b => b
  | PyVal.int n => n != 0
  | PyVal.rat q => q != 0
  | PyVal.str s => s ≠ ""
  | PyVal.list xs => !xs.isEmpty
  | PyVal.dict kvs => !kvs.isEmpty

/-- Lookup in an embedded dict.  Python dict construction keeps the
last binding of a repeated key, so lookup is last-wins. -/
def dictGet (kvs : List (String × PyVal)) (k : String) : Option PyVal :=
  kvs.foldl (fun acc kv => if kv.1 = k then some kv.2 else acc) Option.none

/-- `d.get(k, dflt)` of an embedded dict. -/
def dictGetD (kvs : List (String × PyVal)) (k : String) (dflt : PyVal) : PyVal :=
  (dictGet kvs k).getD dflt

/-! ## Task / session data model (`src/progress_manager.py`)

`TaskProgress` (progress_manager.py:218-240) and `BatchProgress`
(progress_manager.py:242-272), with their `to_dict` / `from_dict`
serialization. -/

/-- `TaskProgress` dataclass: one unit of work against one keystore file.
`status` ranges over the five strings pending / processing / completed /
failed / skipped.  `attempts` is a Python int (`Int` here, default 0). -/
structure TaskProgress where
  file_path : String
  status : String
  password : Option String := Option.none
  start_time : Option ℚ := Option.none
  end_time : Option ℚ := Option.none
  duration : Option ℚ := Option.none
  error_message : Option String := Option.none
  attempts : Int := 0
  task_alias : Option String := Option.none
  public_key_md5 : Option String := Option.none
  public_key_sha1 : Option String := Option.none
  keystore_type : Option String := Option.none
  certificate_info : Option (List (String × PyVal)) := Option.none

/-- `BatchProgress` dataclass: a whole session. -/
structure BatchProgress where
  session_id : String
  target_path : String
  mask : String
  mode : String
  total_files : Int
  completed_files : Int
  failed_files : Int
  skipped_files : Int
  start_time : ℚ
  last_update : ℚ
  estimated_completion : Option ℚ := Option.none
  tasks : List TaskProgress := []

/-! Field encoders used by `asdict`, and the decoders used when rebuilding
a dataclass from a dict.  A decoder returns `Option.none` exactly when the
stored value cannot inhabit the field (modelling the schema restriction;
`cls(**data)` itself additionally raises on missing or unexpected keys,
which `from_dict` below checks explicitly). -/

def encOptStr : Option String → PyVal
  | Option.none => PyVal.none
  | some s => PyVal.str s

def decOptStr : PyVal → Option (Option String)
  | PyVal.none => some Option.none
  | PyVal.str s => some (some s)
  | _ => Option.none

def encOptRat : Option ℚ → PyVal
  | Option.none => PyVal.none
  | some q => PyVal.rat q

def decOptRat : PyVal → Option (Option ℚ)
  | PyVal.none => some Option.none
  | PyVal.rat q => some (some q)
  | _ => Option.none

def decStr : PyVal → Option String
  | PyVal.str s => some s
  | _ => Option.none

def decInt : PyVal → Option Int
  | PyVal.int n => some n
  | _ => Option.none

def decRat : PyVal → Option ℚ
  | PyVal.rat q => some q
  | _ => Option.none

def encOptDict : Option (List (String × PyVal)) → PyVal
  | Option.none => PyVal.none
  | some kvs => PyVal.dict kvs

def decOptDict : PyVal → Option (Option (List (String × PyVal)))
  | PyVal.none => some Option.none
  | PyVal.dict kvs => some (some kvs)
  | _ => Option.none

/-- Decode an optional field: absent key falls back to the dataclass
default, present key must decode. -/
def decField {α : Type} (kvs : List (String × PyVal)) (k : String)
    (dec : PyVal → Option α) (dflt : α) : Option α :=
  match dictGet kvs k with
  | Option.none => some dflt
  | some v => dec v

/-- `TaskProgress.to_dict` (progress_manager.py:235-236): `asdict(self)`. -/
def TaskProgress.to_dict (t : TaskProgress) : PyVal :=
  PyVal.dict
    [ ("file_path", PyVal.str t.file_path)
    , ("status", PyVal.str t.status)
    , ("password", encOptStr t.password)
    , ("start_time", encOptRat t.start_time)
    , ("end_time", encOptRat t.end_time)
    , ("duration", encOptRat t.duration)
    , ("error_message", encOptStr t.error_message)
    , ("attempts", PyVal.int t.attempts)
    , ("alias", encOptStr t.task_alias)
    , ("public_key_md5", encOptStr t.public_key_md5)
    , ("public_key_sha1", encOptStr t.public_key_sha1)
    , ("keystore_type", encOptStr t.keystore_type)
    , ("certificate_info", encOptDict t.certificate_info) ]

def taskFieldNames : List String :=
  [ "file_path", "status", "password", "start_time", "end_time", "duration"
  , "error_message", "attempts", "alias", "public_key_md5", "public_key_sha1"
  , "keystore_type", "certificate_info" ]

/-- `TaskProgress.from_dict` (progress_manager.py:238-240): `cls(**data)`.
Fails (models the raised `TypeError`) on a non-dict document, an unexpected
key, or a missing required key. -/
def TaskProgress.from_dict : PyVal → Option TaskProgress
  | PyVal.dict kvs =>
    if kvs.all (fun kv => taskFieldNames.contains kv.1) then do
      let fp ← (dictGet kvs "file_path").bind decStr
      let st ← (dictGet kvs "status").bind decStr
      let pw ← decField kvs "password" decOptStr Option.none
      let stt ← decField kvs "start_time" decOptRat Option.none
      let et ← decField kvs "end_time" decOptRat Option.none
      let dur ← decField kvs "duration" decOptRat Option.none
      let em ← decField kvs "error_message" decOptStr Option.none
      let att ← decField kvs "attempts" decInt 0
      let al ← decField kvs "alias" decOptStr Option.none
      let pkm ← decField kvs "public_key_md5" decOptStr Option.none
      let pks ← decField kvs "public_key_sha1" decOptStr Option.none
      let kt ← decField kvs "keystore_type" decOptStr Option.none
      let ci ← decField kvs "certificate_info" decOptDict Option.none
      some { file_path := fp, status := st, password := pw, start_time := stt
           , end_time := et, duration := dur, error_message := em
           , attempts := att, task_alias := al, public_key_md5 := pkm
           , public_key_sha1 := pks, keystore_type := kt
           , certificate_info := ci }
    else Option.none
  | _ => Option.none

/-- `BatchProgress.to_dict` (progress_manager.py:262-265): `asdict(self)`
with `tasks` re-serialized entry-wise. -/
def BatchProgress.to_dict (b : BatchProgress) : PyVal :=
  PyVal.dict
    [ ("session_id", PyVal.str b.session_id)
    , ("target_path", PyVal.str b.target_path)
    , ("mask", PyVal.str b.mask)
    , ("mode", PyVal.str b.mode)
    , ("total_files", PyVal.int b.total_files)
    , ("completed_files", PyVal.int b.completed_files)
    , ("failed_files", PyVal.int b.failed_files)
    , ("skipped_files", PyVal.int b.skipped_files)
    , ("start_time", PyVal.rat b.start_time)
    , ("last_update", PyVal.rat b.last_update)
    , ("estimated_completion", encOptRat b.estimated_completion)
    , ("tasks", PyVal.list (b.tasks.map TaskProgress.to_dict)) ]

def batchFieldNames : List String :=
  [ "session_id", "target_path", "mask", "mode", "total_files"
  , "completed_files", "failed_files", "skipped_files", "start_time"
  , "last_update", "estimated_completion", "tasks" ]

/-- Decode every task of a stored `tasks` list
(`[TaskProgress.from_dict(task) for task in tasks_data]`). -/
def decTasks : PyVal → Option (List TaskProgress)
  | PyVal.list xs => xs.mapM TaskProgress.from_dict
  | _ => Option.none

/-- `BatchProgress.from_dict` (progress_manager.py:267-272): pops `tasks`
(default `[]`), rebuilds the record with `cls(**data)`, then rebuilds every
task. -/
def BatchProgress.from_dict : PyVal → Option BatchProgress
  | PyVal.dict kvs =>
    if kvs.all (fun kv => batchFieldNames.contains kv.1) then do
      let sid ← (dictGet kvs "session_id").bind decStr
      let tp ← (dictGet kvs "target_path").bind decStr
      let mask ← (dictGet kvs "mask").bind decStr
      let mode ← (dictGet kvs "mode").bind decStr
      let tot ← (dictGet kvs "total_files").bind decInt
      let cf ← (dictGet kvs "completed_files").bind decInt
      let ff ← (dictGet kvs "failed_files").bind decInt
      let sf ← (dictGet kvs "skipped_files").bind decInt
      let st ← (dictGet kvs "start_time").bind decRat
      let lu ← (dictGet kvs "last_update").bind decRat
      let ec ← decField kvs "estimated_completion" decOptRat Option.none
      let tasks ← decField kvs "tasks" decTasks []
      some { session_id := sid, target_path := tp, mask := mask, mode := mode
           , total_files := tot, completed_files := cf, failed_files := ff
           , skipped_files := sf, start_time := st, last_update := lu
           , estimated_completion := ec, tasks := tasks }
    else Option.none
  | _ => Option.none

/-! ## Session-level task transitions (`src/progress_manager.py:343-451`)

Python mutates `self.current_session` in place; the embedding passes the
session explicitly and returns the updated session together with the `bool`
the method returns.  `update_first` models mutation through the reference
returned by `get_task_by_path`, which is the FIRST task whose `file_path`
matches. -/

/-- Replace the first list element satisfying `p` by `f` of it. -/
def update_first {α : Type} (p : α → Bool) (f : α → α) : List α → List α
  | [] => []
  | x :: xs => if p x then f x :: xs else x :: update_first p f xs

/-- `get_pending_tasks` restricted to a session value
(progress_manager.py:343-349). -/
def pending_tasks (s : BatchProgress) : List TaskProgress :=
  s.tasks.filter (fun t => t.status = "pending")

/-- `get_task_by_path` restricted to a session value
(progress_manager.py:351-359): first task with the given `file_path`. -/
def task_by_path (s : BatchProgress) (file_path : String) : Option TaskProgress :=
  s.tasks.find? (fun t => t.file_path = file_path)

/-- The in-session part of `start_task` (progress_manager.py:361-372):
unknown path returns `false` and leaves the session alone; otherwise the
first matching task is set to `processing` (regardless of its current
status — the source checks nothing), stamped, and its attempt count
incremented. -/
def start_taskS (now : ℚ) (file_path : String) (s : BatchProgress) :
    BatchProgress × Bool :=
  match task_by_path s file_path with
  | Option.none => (s, false)
  | some _ =>
    ({ s with tasks := (update_first (fun t => t.file_path = file_path)
                  (fun t =>
                    { t with
                      status := "processing"
                      start_time := some now
                      attempts := t.attempts + 1 }) s.tasks) }, true)

/-- The `estimated_completion` value after
`_update_estimated_completion` (progress_manager.py:431-451): unchanged on
the early-return branches (no completed files, or none with a truthy
duration — Python's `task.duration` truthiness excludes both `None` and
`0.0`), otherwise `now + remaining * mean(duration of completed)`. -/
def new_estimate (now : ℚ) (s : BatchProgress) : Option ℚ :=
  if s.completed_files = 0 then s.estimated_completion
  else
    let completed := s.tasks.filter (fun t =>
      t.status = "completed" && (match t.duration with
        | some d => d != 0
        | Option.none => false))
    if completed.isEmpty then s.estimated_completion
    else
      let avg : ℚ := (completed.map (fun t => t.duration.getD 0)).sum / completed.length
      let remaining : ℚ := ((s.total_files - s.completed_files -
        s.failed_files - s.skipped_files : Int) : ℚ)
      some (now + remaining * avg)

/-- `_update_estimated_completion` (progress_manager.py:431-451): only the
`estimated_completion` field changes. -/
def update_estimated_completion (now : ℚ) (s : BatchProgress) : BatchProgress :=
  { s with estimated_completion := new_estimate now s }

/-- The in-session part of `complete_task` (progress_manager.py:374-397).
No status precondition is checked; `completed_files` is incremented on
every call that finds the task. -/
def complete_taskS (now : ℚ) (file_path password : String) (duration : ℚ)
    (al pkmd5 pksha1 ktype : Option String)
    (cert : Option (List (String × PyVal))) (s : BatchProgress) :
    BatchProgress × Bool :=
  match task_by_path s file_path with
  | Option.none => (s, false)
  | some _ =>
    let s₁ :=
      { s with
        tasks := (update_first (fun t => t.file_path = file_path)
                  (fun t =>
                    { t with
                      status := "completed"
                      password := some password
                      end_time := some now
                      duration := some duration
                      task_alias := al
                      public_key_md5 := pkmd5
                      public_key_sha1 := pksha1
                      keystore_type := ktype
                      certificate_info := cert }) s.tasks)
        completed_files := s.completed_files + 1
        last_update := now }
    (update_estimated_completion now s₁, true)

/-- The in-session part of `fail_task` (progress_manager.py:399-413). -/
def fail_taskS (now : ℚ) (file_path error_message : String) (s : BatchProgress) :
    BatchProgress × Bool :=
  match task_by_path s file_path with
  | Option.none => (s, false)
  | some _ =>
    ({ s with
        tasks := (update_first (fun t => t.file_path = file_path)
                  (fun t =>
                    { t with
                      status := "failed"
                      error_message := some error_message
                      end_time := some now }) s.tasks)
        failed_files := s.failed_files + 1
        last_update := now }, true)

/-- The in-session part of `skip_task` (progress_manager.py:415-429). -/
def skip_taskS (now : ℚ) (file_path reason : String) (s : BatchProgress) :
    BatchProgress × Bool :=
  match task_by_path s file_path with
  | Option.none => (s, false)
  | some _ =>
    ({ s with
        tasks := (update_first (fun t => t.file_path = file_path)
                  (fun t =>
                    { t with
                      status := "skipped"
                      error_message := some reason
                      end_time := some now }) s.tasks)
        skipped_files := s.skipped_files + 1
        last_update := now }, true)

/-! ## Persistence: progress files and the `ProgressManager` state
(`src/progress_manager.py:274-486`)

The progress directory is modelled as an association list from session id
to file content.  A file content is either a fully written JSON document
or a half-written / corrupt byte sequence (`halfDoc v` records the
document whose write was interrupted; `json.load` raises on it). -/

/-- Content of one on-disk progress file. -/
inductive FileContent where
  | doc (v : PyVal)
  | halfDoc (v : PyVal)

/-- The progress directory: session id ↦ file content. -/
def Disk : Type := List (String × FileContent)

def diskGet (d : Disk) (id : String) : Option FileContent :=
  match d with
  | [] => Option.none
  | kv :: rest => if kv.1 = id then some kv.2 else diskGet rest id

def diskSet (d : Disk) (id : String) (c : FileContent) : Disk :=
  match d with
  | [] => [(id, c)]
  | kv :: rest => if kv.1 = id then (id, c) :: rest else kv :: diskSet rest id c

/-- `ProgressManager` state (progress_manager.py:277-282):
`auto_save_interval` is 10 seconds, `last_save_time` starts at 0. -/
structure PM where
  current_session : Option BatchProgress := Option.none
  auto_save_interval : ℚ := 10
  last_save_time : ℚ := 0
  disk : Disk := []

/-- `save_session` (progress_manager.py:460-471): no current session is a
no-op; otherwise one direct `open(file, 'w')` + `json.dump` of
`to_dict()` onto the final path — no temp file, no rename. -/
def save_session (pm : PM) : PM :=
  match pm.current_session with
  | Option.none => pm
  | some s => { pm with disk := diskSet pm.disk s.session_id (FileContent.doc s.to_dict) }

/-- `load_session` (progress_manager.py:473-486): missing file is `None`;
a file whose JSON parse or `from_dict` raises is caught and reported as
`None` (best-effort read, never raises). -/
def load_session (d : Disk) (session_id : String) : Option BatchProgress :=
  match diskGet d session_id with
  | Option.none => Option.none
  | some (FileContent.halfDoc _) => Option.none
  | some (FileContent.doc v) => BatchProgress.from_dict v

/-- `_auto_save` (progress_manager.py:453-458): persists only when at
least `auto_save_interval` elapsed since the last save; terminal
transitions get no special treatment. -/
def auto_save (now : ℚ) (pm : PM) : PM :=
  if now - pm.last_save_time ≥ pm.auto_save_interval then
    { save_session pm with last_save_time := now }
  else pm

/-- Lift an in-session transition to the manager: `get_task_by_path`
returns `None` without a current session, and every transition ends in
`_auto_save` (progress_manager.py:361-429). -/
def liftPM (op : BatchProgress → BatchProgress × Bool) (now : ℚ) (pm : PM) :
    PM × Bool :=
  match pm.current_session with
  | Option.none => (pm, false)
  | some s =>
    match op s with
    | (_, false) => (pm, false)
    | (s', true) => (auto_save now { pm with current_session := some s' }, true)

/-- `start_task` at manager level. -/
def start_task (now : ℚ) (file_path : String) (pm : PM) : PM × Bool :=
  liftPM (start_taskS now file_path) now pm

/-- `complete_task` at manager level. -/
def complete_task (now : ℚ) (file_path password : String) (duration : ℚ)
    (al pkmd5 pksha1 ktype : Option String)
    (cert : Option (List (String × PyVal))) (pm : PM) : PM × Bool :=
  liftPM (complete_taskS now file_path password duration al pkmd5 pksha1 ktype cert) now pm

/-- `fail_task` at manager level. -/
def fail_task (now : ℚ) (file_path error_message : String) (pm : PM) : PM × Bool :=
  liftPM (fail_taskS now file_path error_message) now pm

/-- `skip_task` at manager level. -/
def skip_task (now : ℚ) (file_path reason : String) (pm : PM) : PM × Bool :=
  liftPM (skip_taskS now file_path reason) now pm

/-- `generate_session_id` (progress_manager.py:284-287): the first 12 hex
digits of `md5(f"{target}_{mask}_{mode}_{date}")`.  `md5hex` is the
`hashlib` primitive, passed in explicitly; `dateStr` is
`datetime.now().strftime('%Y%m%d')`. -/
def generate_session_id (md5hex : String → String) (dateStr : String)
    (target_path mask mode : String) : String :=
  (md5hex (target_path ++ "_" ++ mask ++ "_" ++ mode ++ "_" ++ dateStr)).take 12

/-- The fresh session built by `create_session`
(progress_manager.py:309-328): all tasks `pending`, counters zero,
`total_files = len(file_list)`. -/
def init_session (session_id target_path mask mode : String)
    (now : ℚ) (file_list : List String) : BatchProgress :=
  { session_id := session_id, target_path := target_path, mask := mask
  , mode := mode, total_files := (file_list.length : Int)
  , completed_files := 0, failed_files := 0, skipped_files := 0
  , start_time := now, last_update := now
  , estimated_completion := Option.none
  , tasks := file_list.map (fun fp => { file_path := fp, status := "pending" }) }

/-- `create_session` (progress_manager.py:289-332): recompute the id; if a
session loads from disk and the user confirms, adopt it VERBATIM as the
current session; otherwise build a fresh one and `save_session`
immediately (a direct save, not `_auto_save`). -/
def create_session (md5hex : String → String) (dateStr : String)
    (confirm : Bool) (now : ℚ) (target_path mask mode : String)
    (file_list : List String) (pm : PM) : PM × String :=
  let session_id := generate_session_id md5hex dateStr target_path mask mode
  match load_session pm.disk session_id with
  | some existing =>
    if confirm then ({ pm with current_session := some existing }, session_id)
    else
      let fresh := init_session session_id target_path mask mode now file_list
      (save_session { pm with current_session := some fresh }, session_id)
  | Option.none =>
    let fresh := init_session session_id target_path mask mode now file_list
    (save_session { pm with current_session := some fresh }, session_id)

/-! ## JSON decoding (`json.loads`) and the status line decoder
(`src/cracker_hashcat_gpu.py:457-494`)

`json.loads` is embedded as a fuel-based recursive-descent decoder over the
character list; it accepts objects, arrays, strings (with the standard
escapes), integers and decimal/exponent numbers, `true`/`false`/`null`,
and insists — as Python does — that nothing but whitespace follows the
document.  (Python's lenient extras — `NaN`/`Infinity` literals — and its
rejection of leading zeros are irrelevant to every input considered here.) -/

def lbraceChar : Char := Char.ofNat 123

def rbraceChar : Char := Char.ofNat 125

def quotChar : Char := Char.ofNat 34

def backslashChar : Char := Char.ofNat 92

def jsonWs (c : Char) : Bool :=
  c = ' ' || c = Char.ofNat 9 || c = Char.ofNat 10 || c = Char.ofNat 13

def skipWs : List Char → List Char
  | [] => []
  | c :: cs => if jsonWs c then skipWs cs else c :: cs

/-- Parse a maximal nonempty run of decimal digits: value, digit count, rest. -/
def parseDigits : List Char → Option (Nat × Nat × List Char)
  | [] => Option.none
  | c :: cs =>
    if c.isDigit then
      match parseDigits cs with
      | some (v, k, rest) => some ((c.toNat - 48) * 10 ^ k + v, k + 1, rest)
      | Option.none => some (c.toNat - 48, 1, cs)
    else Option.none

/-- Fraction part `.ddd` (digits mandatory after the dot, as in the JSON
grammar). -/
def parseFracPart : List Char → Option (Option (Nat × Nat) × List Char)
  | [] => some (Option.none, [])
  | c :: cs =>
    if c = '.' then
      match parseDigits cs with
      | some (fv, fk, rest) => some (some (fv, fk), rest)
      | Option.none => Option.none
    else some (Option.none, c :: cs)

/-- Exponent part `e±ddd` (digits mandatory after the marker). -/
def parseExpPart : List Char → Option (Option Int × List Char)
  | [] => some (Option.none, [])
  | c :: cs =>
    if c = 'e' || c = 'E' then
      let signRest : Int × List Char := match cs with
        | d :: r => if d = '+' then (1, r) else if d = '-' then (-1, r) else (1, cs)
        | [] => (1, cs)
      match parseDigits signRest.2 with
      | some (ev, _, rest) => some (some (signRest.1 * ev), rest)
      | Option.none => Option.none
    else some (Option.none, c :: cs)

/-- Assemble a JSON number: pure integers decode to Python `int`, anything
with a fraction or exponent to Python `float`. -/
def mkNumber (neg : Bool) (ip : Nat) (frac : Option (Nat × Nat))
    (ex : Option Int) : PyVal :=
  match frac, ex with
  | Option.none, Option.none =>
    PyVal.int (if neg then -(ip : Int) else (ip : Int))
  | _, _ =>
    let mag : ℚ := (ip : ℚ) + (match frac with
      | some (fv, fk) => (fv : ℚ) / 10 ^ fk
      | Option.none => 0)
    let scaled : ℚ := match ex with
      | some e => mag * (10 : ℚ) ^ (e : ℤ)
      | Option.none => mag
    PyVal.rat (if neg then -scaled else scaled)

def parseNumber (cs : List Char) : Option (PyVal × List Char) :=
  let signRest : Bool × List Char := match cs with
    | c :: rest => if c = '-' then (true, rest) else (false, cs)
    | [] => (false, cs)
  match parseDigits signRest.2 with
  | Option.none => Option.none
  | some (ip, _, cs₂) =>
    match parseFracPart cs₂ with
    | Option.none => Option.none
    | some (frac, cs₃) =>
      match parseExpPart cs₃ with
      | Option.none => Option.none
      | some (ex, cs₄) => some (mkNumber signRest.1 ip frac ex, cs₄)

def hexVal (c : Char) : Option Nat :=
  if c.isDigit then some (c.toNat - 48)
  else if 'a' ≤ c && c ≤ 'f' then some (c.toNat - 87)
  else if 'A' ≤ c && c ≤ 'F' then some (c.toNat - 55)
  else Option.none

def escChar (d : Char) : Option Char :=
  if d = quotChar || d = backslashChar || d = '/' then some d
  else if d = 'b' then some (Char.ofNat 8)
  else if d = 'f' then some (Char.ofNat 12)
  else if d = 'n' then some (Char.ofNat 10)
  else if d = 'r' then some (Char.ofNat 13)
  else if d = 't' then some (Char.ofNat 9)
  else Option.none

/-- JSON string body, the opening quote already consumed.  (Surrogate-pair
`\uXXXX` recombination is not modelled; no claim exercises it.) -/
def parseJString : List Char → Option (String × List Char)
  | [] => Option.none
  | c :: cs =>
    if c = quotChar then some ("", cs)
    else if c = backslashChar then
      match cs with
      | [] => Option.none
      | d :: cs₂ =>
        if d = 'u' then
          match cs₂ with
          | h1 :: h2 :: h3 :: h4 :: cs₃ =>
            match hexVal h1, hexVal h2, hexVal h3, hexVal h4 with
            | some a, some b, some e, some f =>
              (parseJString cs₃).map (fun sr =>
                (String.mk (Char.ofNat (((a * 16 + b) * 16 + e) * 16 + f) :: sr.1.toList), sr.2))
            | _, _, _, _ => Option.none
          | _ => Option.none
        else
          match escChar d with
          | some ch => (parseJString cs₂).map (fun sr =>
              (String.mk (ch :: sr.1.toList), sr.2))
          | Option.none => Option.none
    else (parseJString cs).map (fun sr => (String.mk (c :: sr.1.toList), sr.2))

/-- Expect a literal keyword (`true` / `false` / `null`). -/
def expectLit (lit : List Char) (cs : List Char) : Option (List Char) :=
  match lit, cs with
  | [], rest => some rest
  | l :: ls, c :: rest => if c = l then expectLit ls rest else Option.none
  | _ :: _, [] => Option.none

mutual

/-- One JSON value, leading whitespace allowed. -/
def parseVal : Nat → List Char → Option (PyVal × List Char)
  | 0, _ => Option.none
  | fuel + 1, cs =>
    match skipWs cs with
    | [] => Option.none
    | c :: rest =>
      if c = lbraceChar then
        match skipWs rest with
        | d :: rest₂ =>
          if d = rbraceChar then some (PyVal.dict [], rest₂)
          else parseMembers fuel (d :: rest₂) []
        | [] => Option.none
      else if c = '[' then
        match skipWs rest with
        | d :: rest₂ =>
          if d = ']' then some (PyVal.list [], rest₂)
          else parseElems fuel (d :: rest₂) []
        | [] => Option.none
      else if c = quotChar then
        (parseJString rest).map (fun sr => (PyVal.str sr.1, sr.2))
      else if c = 't' then
        (expectLit ['r', 'u', 'e'] rest).map (fun r => (PyVal.bool true, r))
      else if c = 'f' then
        (expectLit ['a', 'l', 's', 'e'] rest).map (fun r => (PyVal.bool false, r))
      else if c = 'n' then
        (expectLit ['u', 'l', 'l'] rest).map (fun r => (PyVal.none, r))
      else parseNumber (c :: rest)

/-- Object members, positioned at a key. -/
def parseMembers : Nat → List Char → List (String × PyVal) →
    Option (PyVal × List Char)
  | 0, _, _ => Option.none
  | fuel + 1, cs, acc =>
    match skipWs cs with
    | [] => Option.none
    | c :: rest =>
      if c = quotChar then
        match parseJString rest with
        | Option.none => Option.none
        | some (k, r₁) =>
          match skipWs r₁ with
          | [] => Option.none
          | d :: r₂ =>
            if d = ':' then
              match parseVal fuel r₂ with
              | Option.none => Option.none
              | some (v, r₃) =>
                match skipWs r₃ with
                | [] => Option.none
                | e :: r₄ =>
                  if e = ',' then parseMembers fuel r₄ (acc ++ [(k, v)])
                  else if e = rbraceChar then some (PyVal.dict (acc ++ [(k, v)]), r₄)
                  else Option.none
            else Option.none
      else Option.none

/-- Array elements, positioned at a value. -/
def parseElems : Nat → List Char → List PyVal → Option (PyVal × List Char)
  | 0, _, _ => Option.none
  | fuel + 1, cs, acc =>
    match parseVal fuel cs with
    | Option.none => Option.none
    | some (v, r₁) =>
      match skipWs r₁ with
      | [] => Option.none
      | e :: r₂ =>
        if e = ',' then parseElems fuel r₂ (acc ++ [v])
        else if e = ']' then some (PyVal.list (acc ++ [v]), r₂)
        else Option.none

end

/-- `json.loads`: one document, nothing but whitespace after it. -/
def jsonLoads (cs : List Char) : Option PyVal :=
  match parseVal (cs.length + 1) cs with
  | some (v, rest) => if (skipWs rest).isEmpty then some v else Option.none
  | Option.none => Option.none

/-- `status_line.find('{')` and the slice from there: the suffix starting
at the first opening brace, `None` when the line has no brace. -/
def dropToBrace : List Char → Option (List Char)
  | [] => Option.none
  | c :: cs => if c = lbraceChar then some (c :: cs) else dropToBrace cs

/-- The snapshot dict built by `parse_hashcat_status`
(cracker_hashcat_gpu.py:469-488).  The first eleven entries are always
present (with the `.get` defaults of the source); `speed`/`temp`/`util`
are added only when the `devices` list is non-empty. -/
structure HcStatus where
  session : PyVal
  status : PyVal
  target : PyVal
  progress : PyVal
  restore_point : PyVal
  recovered_hashes : PyVal
  recovered_salts : PyVal
  rejected : PyVal
  devices : PyVal
  time_start : PyVal
  estimated_stop : PyVal
  speed : Option PyVal := Option.none
  temp : Option PyVal := Option.none
  util : Option PyVal := Option.none

/-- `parse_hashcat_status` (cracker_hashcat_gpu.py:457-494): find the first
structured payload in the line, decode it, build the snapshot with
defaults; any raised exception (no valid JSON, a non-dict document, a
truthy `devices` whose first element is not a dict, …) is caught and
reported as `None`.  Total by construction — it never raises. -/
def parse_hashcat_status (status_line : String) : Option HcStatus :=
  match dropToBrace status_line.toList with
  | Option.none => Option.none
  | some jsonSuffix =>
    match jsonLoads jsonSuffix with
    | Option.none => Option.none
    | some (PyVal.dict kvs) =>
      let base : HcStatus :=
        { session := dictGetD kvs "session" (PyVal.str "")
        , status := dictGetD kvs "status" (PyVal.int 0)
        , target := dictGetD kvs "target" (PyVal.str "")
        , progress := dictGetD kvs "progress" (PyVal.list [PyVal.int 0, PyVal.int 0])
        , restore_point := dictGetD kvs "restore_point" (PyVal.int 0)
        , recovered_hashes := dictGetD kvs "recovered_hashes"
            (PyVal.list [PyVal.int 0, PyVal.int 0])
        , recovered_salts := dictGetD kvs "recovered_salts"
            (PyVal.list [PyVal.int 0, PyVal.int 0])
        , rejected := dictGetD kvs "rejected" (PyVal.int 0)
        , devices := dictGetD kvs "devices" (PyVal.list [])
        , time_start := dictGetD kvs "time_start" (PyVal.int 0)
        , estimated_stop := dictGetD kvs "estimated_stop" (PyVal.int 0) }
      if pyTruthy base.devices then
        match base.devices with
        | PyVal.list (PyVal.dict dk :: _) =>
          some { base with
                  speed := some (dictGetD dk "speed" (PyVal.int 0))
                  temp := some (dictGetD dk "temp" (PyVal.int 0))
                  util := some (dictGetD dk "util" (PyVal.int 0)) }
        | _ => Option.none
      else some base
    | some _ => Option.none

/-! ## Engine exit-outcome handling

`step2_gpu_cracking` (ultimate_batch_cracker.py:292-419) classifies the
engine run by the raw exit code alone — it never consults the parsed
status snapshots; `crack_single_hash` (cracker_hashcat_gpu.py:599-694)
never consults the exit code at all and decides purely from the
result-sink (potfile) reads. -/

inductive EngineOutcome where
  | recovered
  | exhausted
  | crashed
deriving DecidableEq

/-- Exit handling of `step2_gpu_cracking`
(ultimate_batch_cracker.py:396-409): code 0 → "破解成功" and step marked
done (`recovered`, `true`); code 1 → "未找到密码" and still `true`
(`exhausted`); anything else → "出现错误", `false` (`crashed`). -/
def step2_gpu_cracking_outcome (return_code : Int) : EngineOutcome × Bool :=
  if return_code = 0 then (EngineOutcome.recovered, true)
  else if return_code = 1 then (EngineOutcome.exhausted, true)
  else (EngineOutcome.crashed, false)

/-- Modelled from the spec: the exit-code policy of §4.3 — code 0 counts
as `Recovered` only when at least one recovered credential was observed in
the parsed snapshots, otherwise `Exhausted`; code 1 is `Exhausted`; any
other code is `Crashed`.  (This policy is absent from src; it is stated
here only to be compared with `step2_gpu_cracking_outcome`.) -/
def spec_exit_policy (return_code : Int) (recovered_count : Nat) : EngineOutcome :=
  if return_code = 0 then
    if 0 < recovered_count then EngineOutcome.recovered else EngineOutcome.exhausted
  else if return_code = 1 then EngineOutcome.exhausted
  else EngineOutcome.crashed

/-- Success decision of `crack_single_hash`
(cracker_hashcat_gpu.py:619-694): one potfile read per attack, first
password found wins; the subprocess exit code is never read. -/
def crack_single_hash_outcome : List (Option String) → Bool × String
  | [] => (false, "")
  | some pw :: _ => (true, pw)
  | Option.none :: rest => crack_single_hash_outcome rest

/-! ## Parallel extraction worker (`src/analyzer_crack_result.py`)

`extract_simple_info` (an external Credential-Inspector call doing file
and keytool I/O) and `Path.stat` are passed in as explicit functions; an
`Except.error` models a raised exception with its `str(e)` text.  The
process pool's `imap_unordered` yields outcomes in completion order; the
embedding enumerates them in submission order — every claim below is
order-independent (one outcome per task, outcome `i` a function of task
`i` alone). -/

structure ExtractOutcome where
  uuid : String
  keystore_path : String
  password : String
  alias_name : String
  public_key_md5 : String
  public_key_sha1 : String
  keystore_type : String
  file_size : Int
  extraction_success : Bool
  extraction_error : Option String

/-- `keystore_path.stat().st_size if keystore_path.exists() else 0`
(analyzer_crack_result.py:144). -/
def size_or_zero (fsize : String → Except String Int) (p : String) : Int :=
  match fsize p with
  | Except.ok n => n
  | Except.error _ => 0

/-- The failure outcome built in the `except` arm of `_extract_worker`
(analyzer_crack_result.py:135-147). -/
def extract_failure (fsize : String → Except String Int)
    (uuid path password e : String) : ExtractOutcome :=
  { uuid := uuid, keystore_path := path, password := password
  , alias_name := "提取失败", public_key_md5 := "提取失败"
  , public_key_sha1 := "提取失败", keystore_type := "JKS"
  , file_size := size_or_zero fsize path
  , extraction_success := false, extraction_error := some e }

/-- `_extract_worker` (analyzer_crack_result.py:102-147): run the payload
inside a try; any exception (from the extraction or from the `stat` in the
success arm) becomes a structured failure outcome; nothing propagates. -/
def extract_worker
    (extract : String → String → Except String (String × String × String × String))
    (fsize : String → Except String Int)
    (args : String × String × String) : ExtractOutcome :=
  let uuid := args.1
  let path := args.2.1
  let password := args.2.2
  match extract path password with
  | Except.ok info =>
    match fsize path with
    | Except.ok n =>
      { uuid := uuid, keystore_path := path, password := password
      , alias_name := info.1, public_key_md5 := info.2.1
      , public_key_sha1 := info.2.2.1, keystore_type := info.2.2.2
      , file_size := n, extraction_success := true
      , extraction_error := Option.none }
    | Except.error e => extract_failure fsize uuid path password e
  | Except.error e => extract_failure fsize uuid path password e

def lookupStr (m : List (String × String)) (k : String) : Option String :=
  match m with
  | [] => Option.none
  | kv :: rest => if kv.1 = k then some kv.2 else lookupStr rest k

/-- Task list built by `process_all_results_parallel`
(analyzer_crack_result.py:291-298): one `(uuid, path, password)` per
cracked credential whose uuid is in the keystore map. -/
def build_tasks (cracked : List (String × String))
    (keystore_map : List (String × String)) : List (String × String × String) :=
  cracked.filterMap (fun up =>
    match lookupStr keystore_map up.1 with
    | some path => some (up.1, path, up.2)
    | Option.none => Option.none)

/-- `process_all_results_parallel` (analyzer_crack_result.py:284-359):
the pool maps `_extract_worker` over the task list, one outcome per task. -/
def process_all_results_parallel
    (extract : String → String → Except String (String × String × String × String))
    (fsize : String → Except String Int)
    (cracked : List (String × String))
    (keystore_map : List (String × String)) : List ExtractOutcome :=
  (build_tasks cracked keystore_map).map (extract_worker extract fsize)

/-! ## File-operation traces for the atomicity analysis (claim C6 scope)

A save is a sequence of file operations.  A plain `write` is not atomic: a
concurrent reader (or a crash) can observe the target mid-write, holding a
half-written byte sequence — recorded as `FileContent.halfDoc`.  A
`rename` is atomic.  `observable_states` lists every disk state a
concurrent reader can observe while the operations execute. -/

inductive FsOp where
  | write (path : String) (v : PyVal)
  | rename (src dst : String)

def diskDel (d : Disk) (id : String) : Disk :=
  match d with
  | [] => []
  | kv :: rest => if kv.1 = id then rest else kv :: diskDel rest id

def runFsOp (d : Disk) : FsOp → Disk
  | FsOp.write p v => diskSet d p (FileContent.doc v)
  | FsOp.rename src dst =>
    match diskGet d src with
    | some c => diskSet (diskDel d src) dst c
    | Option.none => d

/-- Disk states observable before, during and after each operation. -/
def observable_states (d : Disk) : List FsOp → List Disk
  | [] => [d]
  | FsOp.write p v :: rest =>
    d :: diskSet d p (FileContent.halfDoc v) ::
      observable_states (runFsOp d (FsOp.write p v)) rest
  | FsOp.rename src dst :: rest =>
    d :: observable_states (runFsOp d (FsOp.rename src dst)) rest

/-- Is a half-written file at `path` observable at some point of the
trace? -/
def can_observe_half (ops : List FsOp) (d : Disk) (path : String) : Bool :=
  (observable_states d ops).any (fun d' =>
    match diskGet d' path with
    | some (FileContent.halfDoc _) => true
    | _ => false)

/-- The file operations `save_session` actually performs
(progress_manager.py:460-471): a single direct write of the serialized
session onto the final progress-file path. -/
def save_session_ops (pm : PM) : List FsOp :=
  match pm.current_session with
  | Option.none => []
  | some s => [FsOp.write s.session_id s.to_dict]

/-- Modelled from the spec: the write-temp-then-rename save of §4.1/§5
(absent from src — stated only to be compared with `save_session_ops`). -/
def atomic_save_ops (s : BatchProgress) : List FsOp :=
  [ FsOp.write (s.session_id ++ ".tmp") s.to_dict
  , FsOp.rename (s.session_id ++ ".tmp") s.session_id ]

/-! ## Transition sequences over one session (claim C4 scope) -/

inductive Act where
  | start (now : ℚ) (path : String)
  | complete (now : ℚ) (path password : String) (duration : ℚ)
      (al pkmd5 pksha1 ktype : Option String)
      (cert : Option (List (String × PyVal)))
  | fail (now : ℚ) (path msg : String)
  | skip (now : ℚ) (path reason : String)

def actPath : Act → String
  | Act.start _ p => p
  | Act.complete _ p _ _ _ _ _ _ _ => p
  | Act.fail _ p _ => p
  | Act.skip _ p _ => p

def applyAct (s : BatchProgress) : Act → BatchProgress
  | Act.start now p => (start_taskS now p s).1
  | Act.complete now p pw d al m s1 kt c => (complete_taskS now p pw d al m s1 kt c s).1
  | Act.fail now p m => (fail_taskS now p m s).1
  | Act.skip now p r => (skip_taskS now p r s).1

/-- A call respects the specified state machine: `begin` only on a task
currently `pending`, terminal transitions only on a task currently
`processing`; calls naming an unknown target are no-ops and always
allowed. -/
def legalAct (s : BatchProgress) (a : Act) : Bool :=
  match task_by_path s (actPath a) with
  | Option.none => true
  | some t =>
    match a with
    | Act.start _ _ => t.status == "pending"
    | _ => t.status == "processing"

def legalSeq (s : BatchProgress) : List Act → Bool
  | [] => true
  | a :: rest => legalAct s a && legalSeq (applyAct s a) rest

def run_acts (s : BatchProgress) : List Act → BatchProgress
  | [] => s
  | a :: rest => run_acts (applyAct s a) rest

def is_terminal (st : String) : Bool :=
  st == "completed" || st == "failed" || st == "skipped"

def terminal_count (ts : List TaskProgress) : Nat :=
  ts.countP (fun t => is_terminal t.status)

/-- The bookkeeping invariant maintained by legal sequences: the three
counters sum to the number of terminal tasks, and `total_files` is the
task count. -/
def counters_consistent (s : BatchProgress) : Prop :=
  s.completed_files + s.failed_files + s.skipped_files =
    (terminal_count s.tasks : Int) ∧
  s.total_files = (s.tasks.length : Int)

instance (s : BatchProgress) : Decidable (counters_consistent s) := by
  unfold counters_consistent; infer_instance

/-- The specified counter invariant. -/
def counter_invariant (s : BatchProgress) : Prop :=
  s.completed_files + s.failed_files + s.skipped_files ≤ s.total_files

instance (s : BatchProgress) : Decidable (counter_invariant s) := by
  unfold counter_invariant; infer_instance

/-- Manager-level `get_task_by_path` (progress_manager.py:351-359). -/
def get_task_by_path (pm : PM) (file_path : String) : Option TaskProgress :=
  match pm.current_session with
  | Option.none => Option.none
  | some s => task_by_path s file_path

/-! ## Concrete values used by counterexamples and witnesses -/

/-- One task persisted mid-processing (simulated crash). -/
def exTaskProcessing : TaskProgress := { file_path := "a", status := "processing" }

/-- A persisted session whose single task is `processing`. -/
def exSessionProcessing : BatchProgress :=
  { session_id := "abc", target_path := "tgt", mask := "?a", mode := "batch"
  , total_files := 1, completed_files := 0, failed_files := 0, skipped_files := 0
  , start_time := 0, last_update := 0, tasks := [exTaskProcessing] }

/-- A progress directory holding that session. -/
def exDiskProcessing : Disk := [("abc", FileContent.doc exSessionProcessing.to_dict)]

/-- A session whose single task already completed. -/
def exSessionCompleted : BatchProgress :=
  { session_id := "abc", target_path := "tgt", mask := "?a", mode := "batch"
  , total_files := 1, completed_files := 1, failed_files := 0, skipped_files := 0
  , start_time := 0, last_update := 0
  , tasks := [{ file_path := "a", status := "completed" }] }

/-- A fresh one-task session. -/
def exInit1 : BatchProgress := init_session "sid" "tgt" "?a" "batch" 0 ["a"]

/-- A terminal transition on target `a`. -/
def exCompleteAct : Act :=
  Act.complete 1 "a" "pw" 5 Option.none Option.none Option.none Option.none Option.none

/-- A legal two-step history: begin `a`, then complete `a`. -/
def exActs : List Act := [Act.start 0 "a", exCompleteAct]

/-- A manager that saved `exInit1` at time 100 (throttle still closed at
time 105). -/
def exPMThrottled : PM :=
  { current_session := some exInit1, last_save_time := 100
  , disk := [("sid", FileContent.doc exInit1.to_dict)] }

/-- A manager whose throttle is open (last save at time 0, now 50). -/
def exPMOpen : PM :=
  { current_session := some exInit1, last_save_time := 0
  , disk := [("sid", FileContent.doc exInit1.to_dict)] }

/-- The session after completing `a` at time 50 (used to spell out the
persisted document in the C5 witness). -/
def exCompleted50 : BatchProgress :=
  (complete_taskS 50 "a" "pw" 5 Option.none Option.none Option.none Option.none
    Option.none exInit1).1

/-! ## Helper lemmas -/

theorem decOptStr_enc (x : Option String) : decOptStr (encOptStr x) = some x := by
  cases x <;> rfl

theorem decOptRat_enc (x : Option ℚ) : decOptRat (encOptRat x) = some x := by
  cases x <;> rfl

theorem decOptDict_enc (x : Option (List (String × PyVal))) :
    decOptDict (encOptDict x) = some x := by
  cases x <;> rfl

/-- `from_dict` inverts `to_dict` on every task value. -/
theorem task_from_to (t : TaskProgress) :
    TaskProgress.from_dict t.to_dict = some t := by
  obtain ⟨fp, st, pw, stt, et, dur, em, att, al, pkm, pks, kt, ci⟩ := t
  simp [TaskProgress.from_dict, TaskProgress.to_dict, dictGet, decField,
    taskFieldNames, decStr, decInt, decOptStr_enc, decOptRat_enc, decOptDict_enc]

theorem mapM_loop_from_to (ts : List TaskProgress) (acc : List TaskProgress) :
    List.mapM.loop TaskProgress.from_dict (ts.map TaskProgress.to_dict) acc =
      some (acc.reverse ++ ts) := by
  induction ts generalizing acc with
  | nil => simp [List.mapM.loop]
  | cons t rest ih =>
    simp [List.mapM.loop, task_from_to, ih]

/-- `from_dict` inverts `to_dict` task-list-wise. -/
theorem tasks_from_to (ts : List TaskProgress) :
    (ts.map TaskProgress.to_dict).mapM TaskProgress.from_dict = some ts := by
  simpa using mapM_loop_from_to ts []

/-- `from_dict` inverts `to_dict` on every session value. -/
theorem batch_from_to (b : BatchProgress) :
    BatchProgress.from_dict b.to_dict = some b := by
  obtain ⟨sid, tp, mask, mode, tot, cf, ff, sf, st, lu, ec, ts⟩ := b
  simp [BatchProgress.from_dict, BatchProgress.to_dict, dictGet, decField,
    batchFieldNames, decStr, decInt, decRat, decTasks, decOptRat_enc,
    mapM_loop_from_to]

theorem update_first_length {α : Type} (p : α → Bool) (f : α → α) (l : List α) :
    (update_first p f l).length = l.length := by
  induction l with
  | nil => rfl
  | cons x xs ih =>
    unfold update_first
    by_cases h : p x <;> simp [h, ih]

theorem find?_update_first {α : Type} (p : α → Bool) (f : α → α) (l : List α)
    (hf : ∀ x, p (f x) = p x) :
    (update_first p f l).find? p = (l.find? p).map f := by
  induction l with
  | nil => rfl
  | cons x xs ih =>
    unfold update_first
    by_cases h : p x
    · simp [List.find?_cons, h, hf]
    · simp [List.find?_cons, h, ih]

theorem countP_update_first {α : Type} (q p : α → Bool) (f : α → α)
    (l : List α) (t : α) (h : l.find? p = some t) :
    (update_first p f l).countP q + (if q t then 1 else 0) =
      l.countP q + (if q (f t) then 1 else 0) := by
  induction l with
  | nil => simp at h
  | cons x xs ih =>
    by_cases hx : p x
    · rw [List.find?_cons_of_pos _ hx] at h
      cases h
      unfold update_first
      simp only [hx, if_true, List.countP_cons]
      by_cases hq : q t <;> by_cases hqf : q (f t) <;> simp [hq, hqf]
    · rw [List.find?_cons_of_neg _ hx] at h
      unfold update_first
      simp only [hx, Bool.false_eq_true, if_false, List.countP_cons]
      have := ih h
      by_cases hq : q x <;> simp [hq] <;> omega

theorem diskGet_set_self (d : Disk) (k : String) (c : FileContent) :
    diskGet (diskSet d k c) k = some c := by
  induction d with
  | nil => simp [diskSet, diskGet]
  | cons kv rest ih =>
    unfold diskSet
    by_cases h : kv.1 = k
    · simp [h, diskGet]
    · simp [h, diskGet, ih]

theorem diskGet_set_ne (d : Disk) (k k' : String) (c : FileContent)
    (h : k' ≠ k) : diskGet (diskSet d k c) k' = diskGet d k' := by
  induction d with
  | nil => simp [diskSet, diskGet, Ne.symm h]
  | cons kv rest ih =>
    unfold diskSet
    by_cases hk : kv.1 = k
    · rw [if_pos hk]
      show (if k = k' then some c else diskGet rest k') = _
      rw [if_neg (Ne.symm h)]
      unfold diskGet
      rw [if_neg (fun hh : kv.1 = k' => h ((hk.symm.trans hh).symm))]
      cases rest <;> rfl
    · rw [if_neg hk]
      unfold diskGet
      by_cases h2 : kv.1 = k' <;> simp [h2, ih]

/-- No transition ever touches `total_files`. -/
theorem applyAct_total (s : BatchProgress) (a : Act) :
    (applyAct s a).total_files = s.total_files := by
  cases a with
  | start now p =>
    simp only [applyAct, start_taskS]
    cases h : task_by_path s p <;> simp only [h] <;> rfl
  | complete now p pw d al m s1 kt c =>
    simp only [applyAct, complete_taskS]
    cases h : task_by_path s p <;> simp only [h] <;> rfl
  | fail now p m =>
    simp only [applyAct, fail_taskS]
    cases h : task_by_path s p <;> simp only [h] <;> rfl
  | skip now p r =>
    simp only [applyAct, skip_taskS]
    cases h : task_by_path s p <;> simp only [h] <;> rfl

/-- One legal call preserves the bookkeeping invariant. -/
theorem legal_act_preserves (s : BatchProgress) (a : Act)
    (hc : counters_consistent s) (hl : legalAct s a = true) :
    counters_consistent (applyAct s a) := by
  obtain ⟨hsum, htot⟩ := hc
  cases a with
  | start now p =>
    unfold legalAct actPath at hl
    simp only [applyAct, start_taskS]
    cases h : task_by_path s p with
    | none => simp only [h]; exact ⟨hsum, htot⟩
    | some t =>
      simp only [h]
      rw [h] at hl
      have hst : t.status = "pending" := by simpa using hl
      unfold task_by_path at h
      have hcount := countP_update_first (fun x => is_terminal x.status)
        (fun x => x.file_path = p)
        (fun x =>
          { x with
            status := "processing"
            start_time := some now
            attempts := x.attempts + 1 }) s.tasks t h
      have hlen := update_first_length
        (fun x : TaskProgress => decide (x.file_path = p))
        (fun x =>
          { x with
            status := "processing"
            start_time := some now
            attempts := x.attempts + 1 }) s.tasks
      dsimp only at hcount
      rw [hst] at hcount
      rw [(by decide : is_terminal "pending" = false),
          (by decide : is_terminal "processing" = false)] at hcount
      simp at hcount
      unfold terminal_count at hsum
      unfold counters_consistent terminal_count
      dsimp only
      constructor
      · omega
      · omega
  | complete now p pw d al m s1 kt c =>
    unfold legalAct actPath at hl
    simp only [applyAct, complete_taskS]
    cases h : task_by_path s p with
    | none => simp only [h]; exact ⟨hsum, htot⟩
    | some t =>
      simp only [h]
      rw [h] at hl
      have hst : t.status = "processing" := by simpa using hl
      unfold task_by_path at h
      have hcount := countP_update_first (fun x => is_terminal x.status)
        (fun x => x.file_path = p)
        (fun x =>
          { x with
            status := "completed"
            password := some pw
            end_time := some now
            duration := some d
            task_alias := al
            public_key_md5 := m
            public_key_sha1 := s1
            keystore_type := kt
            certificate_info := c }) s.tasks t h
      have hlen := update_first_length
        (fun x : TaskProgress => decide (x.file_path = p))
        (fun x =>
          { x with
            status := "completed"
            password := some pw
            end_time := some now
            duration := some d
            task_alias := al
            public_key_md5 := m
            public_key_sha1 := s1
            keystore_type := kt
            certificate_info := c }) s.tasks
      dsimp only at hcount
      rw [hst] at hcount
      rw [(by decide : is_terminal "processing" = false),
          (by decide : is_terminal "completed" = true)] at hcount
      simp at hcount
      unfold terminal_count at hsum
      unfold counters_consistent terminal_count
      dsimp only [update_estimated_completion]
      constructor
      · omega
      · omega
  | fail now p m =>
    unfold legalAct actPath at hl
    simp only [applyAct, fail_taskS]
    cases h : task_by_path s p with
    | none => simp only [h]; exact ⟨hsum, htot⟩
    | some t =>
      simp only [h]
      rw [h] at hl
      have hst : t.status = "processing" := by simpa using hl
      unfold task_by_path at h
      have hcount := countP_update_first (fun x => is_terminal x.status)
        (fun x => x.file_path = p)
        (fun x =>
          { x with
            status := "failed"
            error_message := some m
            end_time := some now }) s.tasks t h
      have hlen := update_first_length
        (fun x : TaskProgress => decide (x.file_path = p))
        (fun x =>
          { x with
            status := "failed"
            error_message := some m
            end_time := some now }) s.tasks
      dsimp only at hcount
      rw [hst] at hcount
      rw [(by decide : is_terminal "processing" = false),
          (by decide : is_terminal "failed" = true)] at hcount
      simp at hcount
      unfold terminal_count at hsum
      unfold counters_consistent terminal_count
      dsimp only
      constructor
      · omega
      · omega
  | skip now p r =>
    unfold legalAct actPath at hl
    simp only [applyAct, skip_taskS]
    cases h : task_by_path s p with
    | none => simp only [h]; exact ⟨hsum, htot⟩
    | some t =>
      simp only [h]
      rw [h] at hl
      have hst : t.status = "processing" := by simpa using hl
      unfold task_by_path at h
      have hcount := countP_update_first (fun x => is_terminal x.status)
        (fun x => x.file_path = p)
        (fun x =>
          { x with
            status := "skipped"
            error_message := some r
            end_time := some now }) s.tasks t h
      have hlen := update_first_length
        (fun x : TaskProgress => decide (x.file_path = p))
        (fun x =>
          { x with
            status := "skipped"
            error_message := some r
            end_time := some now }) s.tasks
      dsimp only at hcount
      rw [hst] at hcount
      rw [(by decide : is_terminal "processing" = false),
          (by decide : is_terminal "skipped" = true)] at hcount
      simp at hcount
      unfold terminal_count at hsum
      unfold counters_consistent terminal_count
      dsimp only
      constructor
      · omega
      · omega

/-- Legal sequences preserve the bookkeeping invariant. -/
theorem legal_seq_preserves (acts : List Act) (s : BatchProgress)
    (hc : counters_consistent s) (hls : legalSeq s acts = true) :
    counters_consistent (run_acts s acts) := by
  induction acts generalizing s with
  | nil => exact hc
  | cons a rest ih =>
    unfold legalSeq at hls
    rw [Bool.and_eq_true] at hls
    exact ih (applyAct s a) (legal_act_preserves s a hc hls.1) hls.2

/-- No sequence of transitions ever changes `total_files`. -/
theorem run_acts_total (acts : List Act) (s : BatchProgress) :
    (run_acts s acts).total_files = s.total_files := by
  induction acts generalizing s with
  | nil => rfl
  | cons a rest ih => rw [run_acts, ih, applyAct_total]

/-- A freshly created session satisfies the bookkeeping invariant. -/
theorem init_session_consistent (session_id target_path mask mode : String)
    (now : ℚ) (file_list : List String) :
    counters_consistent (init_session session_id target_path mask mode now file_list) := by
  unfold counters_consistent init_session terminal_count
  constructor
  · simp [List.countP_map, Function.comp_def, is_terminal]
  · simp

theorem consistent_implies_invariant (s : BatchProgress)
    (hc : counters_consistent s) : counter_invariant s := by
  obtain ⟨h1, h2⟩ := hc
  unfold counter_invariant
  rw [h1, h2]
  exact_mod_cast List.countP_le_length _

/-! ## Claim theorems -/

/-- C9: serialization round-trip — for every `TaskProgress` value `t`,
`TaskProgress.from_dict (t.to_dict) = t`, and for every `BatchProgress`
value `p` (whose `tasks` are `TaskProgress` values),
`BatchProgress.from_dict (p.to_dict) = p`; a session saved and reloaded
within the same schema reproduces exactly the same state. -/
theorem c9_serialization_round_trip :
    (∀ t : TaskProgress, TaskProgress.from_dict t.to_dict = some t) ∧
    (∀ b : BatchProgress, BatchProgress.from_dict b.to_dict = some b) :=
  ⟨task_from_to, batch_from_to⟩

/-- C4 counterexample: the claim admits repeated terminal calls on the same
target, but completing the single task of a fresh one-task session twice
drives `completed_files` to 2 while `total_files` stays 1, violating
`completed + failed + skipped ≤ total`. -/
theorem c4_counterexample :
    (run_acts exInit1 [exCompleteAct, exCompleteAct]).completed_files = 2 ∧
    (run_acts exInit1 [exCompleteAct, exCompleteAct]).total_files = 1 ∧
    ¬ counter_invariant (run_acts exInit1 [exCompleteAct, exCompleteAct]) :=
  ⟨by decide, by decide, by decide⟩

/-- C4 (amended): `total_files` equals the task count at creation and is
never changed by any transition; and along every transition sequence that
respects the task state machine (`begin` only on a `pending` task,
terminal transitions only on a `processing` task — repeated terminal calls
on the same target are precisely what the source does not defend against),
`completed_files + failed_files + skipped_files ≤ total_files` holds after
every step. -/
theorem c4_counter_invariant :
    (∀ session_id target_path mask mode now file_list,
      counters_consistent (init_session session_id target_path mask mode now file_list)) ∧
    (∀ (s : BatchProgress) (a : Act), (applyAct s a).total_files = s.total_files) ∧
    (∀ (s : BatchProgress) (acts : List Act),
      counters_consistent s → legalSeq s acts = true →
      counter_invariant (run_acts s acts) ∧
      (run_acts s acts).total_files = s.total_files) :=
  ⟨init_session_consistent, applyAct_total,
   fun s acts hc hl =>
     ⟨consistent_implies_invariant _ (legal_seq_preserves acts s hc hl),
      run_acts_total acts s⟩⟩

/-- C4 witness: the amended theorem applied to a concrete fresh session
and the legal history begin-then-complete. -/
theorem c4_witness :
    counters_consistent exInit1 ∧ legalSeq exInit1 exActs = true ∧
    (counter_invariant (run_acts exInit1 exActs) ∧
      (run_acts exInit1 exActs).total_files = exInit1.total_files) :=
  ⟨by decide, by decide, c4_counter_invariant.2.2 exInit1 exActs (by decide) (by decide)⟩

/-- C3 counterexample: `start_task` on a task whose status is the terminal
`completed` succeeds (`true`) and rewrites the task to `processing` —
there is no `InvalidStateError`, the task is changed, and a terminal state
is left. -/
theorem c3_counterexample :
    (start_taskS 7 "a" exSessionCompleted).2 = true ∧
    (start_taskS 7 "a" exSessionCompleted).1.tasks.map (fun t => t.status) =
      ["processing"] ∧
    exSessionCompleted.tasks.map (fun t => t.status) = ["completed"] :=
  ⟨rfl, rfl, rfl⟩

/-- C3 (amended): `start_task` checks only existence, never status: on an
unknown target it returns `false` and changes nothing; on any known target
— whatever its current status, terminal included — it returns `true` and
rewrites the task to `processing`, stamps `started_at` and increments
`attempts`. -/
theorem c3_begin_checks_existence_only :
    ∀ (now : ℚ) (path : String) (s : BatchProgress),
      (task_by_path s path = Option.none → start_taskS now path s = (s, false)) ∧
      (∀ t, task_by_path s path = some t →
        (start_taskS now path s).2 = true ∧
        task_by_path (start_taskS now path s).1 path =
          some { t with
                 status := "processing"
                 start_time := some now
                 attempts := t.attempts + 1 }) := by
  intro now path s
  constructor
  · intro h
    unfold start_taskS
    rw [h]
  · intro t h
    constructor
    · unfold start_taskS
      rw [h]
    · unfold start_taskS
      rw [h]
      show task_by_path _ path = _
      unfold task_by_path at h ⊢
      dsimp only
      rw [find?_update_first (fun x => decide (x.file_path = path))
            (fun x =>
              { x with
                status := "processing"
                start_time := some now
                attempts := x.attempts + 1 })
            s.tasks (fun x => rfl), h]
      rfl

/-- C3 witness: the amended theorem applied to the concrete session whose
task is already `completed`. -/
theorem c3_witness :
    task_by_path exSessionCompleted "a" =
      some { file_path := "a", status := "completed" } ∧
    ((start_taskS 7 "a" exSessionCompleted).2 = true ∧
      task_by_path (start_taskS 7 "a" exSessionCompleted).1 "a" =
        some { file_path := "a", status := "processing",
               start_time := some 7, attempts := 1 }) :=
  ⟨rfl, (c3_begin_checks_existence_only 7 "a" exSessionCompleted).2
    { file_path := "a", status := "completed" } rfl⟩

/-- C2 counterexample: a persisted session whose task is stored
`processing` is reloaded — by `load_session` and by the resume path of
`create_session` — with the task still `processing`, not `pending`:
no reconciliation happens at load time. -/
theorem c2_counterexample :
    (load_session exDiskProcessing "abc").map
      (fun b => b.tasks.map (fun t => t.status)) = some ["processing"] ∧
    ((create_session (fun _ => "abc") "20251012" true 5 "tgt2" "?b" "mode2"
        ["z"] { disk := exDiskProcessing }).1.current_session).map
      (fun b => b.tasks.map (fun t => t.status)) = some ["processing"] ∧
    ("processing" : String) ≠ "pending" :=
  ⟨rfl, rfl, by decide⟩

/-- C2 (amended): loading reproduces the stored session VERBATIM — every
task keeps exactly its persisted status, so a task stored `processing` is
still `processing` (never reset to `pending`) after `load_session`, and
after `create_session` resumes it. -/
theorem c2_reload_preserves_status :
    ∀ (d : Disk) (b : BatchProgress),
      diskGet d b.session_id = some (FileContent.doc b.to_dict) →
      load_session d b.session_id = some b ∧
      (∀ (md5hex : String → String) (dateStr target_path mask mode : String)
        (now : ℚ) (file_list : List String) (pm : PM),
        pm.disk = d →
        generate_session_id md5hex dateStr target_path mask mode = b.session_id →
        (create_session md5hex dateStr true now target_path mask mode
          file_list pm).1.current_session = some b) := by
  intro d b h
  have hload : load_session d b.session_id = some b := by
    unfold load_session
    rw [h]
    exact batch_from_to b
  refine ⟨hload, ?_⟩
  intro md5hex dateStr target_path mask mode now file_list pm hdisk hid
  unfold create_session
  rw [hid, hdisk]
  dsimp only
  rw [hload]
  rfl

/-- C2 witness: the amended theorem applied to the concrete disk holding a
`processing` task. -/
theorem c2_witness :
    diskGet exDiskProcessing "abc" =
      some (FileContent.doc exSessionProcessing.to_dict) ∧
    (load_session exDiskProcessing "abc" = some exSessionProcessing ∧
      (create_session (fun _ => "abc") "d" true 5 "t" "m" "b" ["z"]
        { disk := exDiskProcessing }).1.current_session = some exSessionProcessing) :=
  ⟨rfl, (c2_reload_preserves_status exDiskProcessing exSessionProcessing rfl).1,
    (c2_reload_preserves_status exDiskProcessing exSessionProcessing rfl).2
      (fun _ => "abc") "d" "t" "m" "b" 5 ["z"] { disk := exDiskProcessing } rfl rfl⟩

/-- C10: unknown-target atomicity — when `get_task_by_path` finds nothing
(no active session, or no task with that path), each of `start_task`,
`complete_task`, `fail_task`, `skip_task` returns `false` and the manager
state (session, counters, throttle clock, disk) is bit-for-bit unchanged. -/
theorem c10_unknown_target_atomicity :
    ∀ (pm : PM) (now : ℚ) (path password error_message reason : String)
      (duration : ℚ) (al pkmd5 pksha1 ktype : Option String)
      (cert : Option (List (String × PyVal))),
      get_task_by_path pm path = Option.none →
      start_task now path pm = (pm, false) ∧
      complete_task now path password duration al pkmd5 pksha1 ktype cert pm =
        (pm, false) ∧
      fail_task now path error_message pm = (pm, false) ∧
      skip_task now path reason pm = (pm, false) := by
  intro pm now path password error_message reason duration al pkmd5 pksha1 ktype cert h
  unfold get_task_by_path at h
  cases hcs : pm.current_session with
  | none =>
    refine ⟨?_, ?_, ?_, ?_⟩ <;>
      simp [start_task, complete_task, fail_task, skip_task, liftPM, hcs]
  | some s =>
    rw [hcs] at h
    have h2 : task_by_path s path = Option.none := h
    refine ⟨?_, ?_, ?_, ?_⟩ <;>
      simp [start_task, complete_task, fail_task, skip_task, liftPM, hcs,
        start_taskS, complete_taskS, fail_taskS, skip_taskS, h2]

/-- C10 witness: the theorem applied to a manager whose session only knows
target `a`, queried with the unknown target `zzz`. -/
theorem c10_witness :
    get_task_by_path exPMThrottled "zzz" = Option.none ∧
    (start_task 0 "zzz" exPMThrottled = (exPMThrottled, false) ∧
      complete_task 0 "zzz" "pw" 1 Option.none Option.none Option.none
        Option.none Option.none exPMThrottled = (exPMThrottled, false) ∧
      fail_task 0 "zzz" "e" exPMThrottled = (exPMThrottled, false) ∧
      skip_task 0 "zzz" "r" exPMThrottled = (exPMThrottled, false)) :=
  ⟨rfl, c10_unknown_target_atomicity exPMThrottled 0 "zzz" "pw" "e" "r" 1
    Option.none Option.none Option.none Option.none Option.none rfl⟩

/-- With the throttle closed, no transition reaches the disk. -/
theorem liftPM_disk_throttled (op : BatchProgress → BatchProgress × Bool)
    (now : ℚ) (pm : PM) (h : now - pm.last_save_time < pm.auto_save_interval) :
    (liftPM op now pm).1.disk = pm.disk := by
  unfold liftPM
  cases hcs : pm.current_session with
  | none => rfl
  | some s =>
    dsimp only
    cases hop : op s with
    | mk s' bb =>
      cases bb
      · rfl
      · show (auto_save now { pm with current_session := some s' }).disk = pm.disk
        unfold auto_save
        rw [if_neg (not_le.mpr h)]

/-- With the throttle open, a successful transition persists the updated
session onto its progress file. -/
theorem liftPM_disk_open (op : BatchProgress → BatchProgress × Bool)
    (now : ℚ) (pm : PM) (s s' : BatchProgress)
    (hcs : pm.current_session = some s)
    (h : pm.auto_save_interval ≤ now - pm.last_save_time)
    (hop : op s = (s', true)) :
    (liftPM op now pm).1.disk =
      diskSet pm.disk s'.session_id (FileContent.doc s'.to_dict) := by
  unfold liftPM
  rw [hcs]
  dsimp only
  rw [hop]
  show (auto_save now { pm with current_session := some s' }).disk = _
  unfold auto_save
  rw [if_pos h]
  show (save_session { pm with current_session := some s' }).disk = _
  unfold save_session
  rfl

/-- A successful transition installs the updated session, whatever the
throttle does. -/
theorem liftPM_session (op : BatchProgress → BatchProgress × Bool)
    (now : ℚ) (pm : PM) (s s' : BatchProgress)
    (hcs : pm.current_session = some s) (hop : op s = (s', true)) :
    (liftPM op now pm).1.current_session = some s' := by
  unfold liftPM
  rw [hcs]
  dsimp only
  rw [hop]
  show (auto_save now { pm with current_session := some s' }).current_session = _
  unfold auto_save save_session
  split <;> rfl

/-- C5 counterexample: with the last save 5 seconds old (interval 10), a
terminal `complete_task` updates the in-memory task to `completed` but
leaves the on-disk session file holding the stale `pending` state: the
terminal transition did NOT force a persist. -/
theorem c5_counterexample :
    ((complete_task 105 "a" "pw" 5 Option.none Option.none Option.none
        Option.none Option.none exPMThrottled).1.current_session).map
      (fun b => b.tasks.map (fun t => t.status)) = some ["completed"] ∧
    (complete_task 105 "a" "pw" 5 Option.none Option.none Option.none
        Option.none Option.none exPMThrottled).1.disk = exPMThrottled.disk ∧
    (load_session (complete_task 105 "a" "pw" 5 Option.none Option.none
        Option.none Option.none Option.none exPMThrottled).1.disk "sid").map
      (fun b => b.tasks.map (fun t => t.status)) = some ["pending"] ∧
    ("pending" : String) ≠ "completed" := by
  have hthr : (105 : ℚ) - exPMThrottled.last_save_time <
      exPMThrottled.auto_save_interval := by
    show (105 : ℚ) - 100 < 10
    norm_num
  have hdisk := liftPM_disk_throttled
    (complete_taskS 105 "a" "pw" 5 Option.none Option.none Option.none
      Option.none Option.none) 105 exPMThrottled hthr
  have hsess := liftPM_session
    (complete_taskS 105 "a" "pw" 5 Option.none Option.none Option.none
      Option.none Option.none) 105 exPMThrottled exInit1
    ((complete_taskS 105 "a" "pw" 5 Option.none Option.none Option.none
      Option.none Option.none exInit1).1) rfl rfl
  refine ⟨?_, hdisk, ?_, by decide⟩
  · rw [show complete_task 105 "a" "pw" 5 Option.none Option.none Option.none
        Option.none Option.none exPMThrottled = liftPM (complete_taskS 105 "a"
        "pw" 5 Option.none Option.none Option.none Option.none Option.none)
        105 exPMThrottled from rfl, hsess]
    rfl
  · rw [show (complete_task 105 "a" "pw" 5 Option.none Option.none Option.none
        Option.none Option.none exPMThrottled).1.disk = (liftPM (complete_taskS
        105 "a" "pw" 5 Option.none Option.none Option.none Option.none
        Option.none) 105 exPMThrottled).1.disk from rfl, hdisk]
    rfl

/-- C5 (amended): terminal transitions go through the same throttled
`_auto_save` as everything else — nothing bypasses the throttle.  While
the interval has not elapsed, `complete_task`/`fail_task`/`skip_task`
leave the disk untouched; once it has elapsed, a successful terminal
transition persists the updated session. -/
theorem c5_terminal_saves_throttled :
    ∀ (pm : PM) (now : ℚ) (path password error_message reason : String)
      (duration : ℚ) (al pkmd5 pksha1 ktype : Option String)
      (cert : Option (List (String × PyVal))),
      (now - pm.last_save_time < pm.auto_save_interval →
        (complete_task now path password duration al pkmd5 pksha1 ktype cert
          pm).1.disk = pm.disk ∧
        (fail_task now path error_message pm).1.disk = pm.disk ∧
        (skip_task now path reason pm).1.disk = pm.disk) ∧
      (∀ s s', pm.current_session = some s →
        pm.auto_save_interval ≤ now - pm.last_save_time →
        complete_taskS now path password duration al pkmd5 pksha1 ktype cert s =
          (s', true) →
        (complete_task now path password duration al pkmd5 pksha1 ktype cert
          pm).1.disk =
          diskSet pm.disk s'.session_id (FileContent.doc s'.to_dict)) := by
  intro pm now path password error_message reason duration al pkmd5 pksha1 ktype cert
  constructor
  · intro h
    exact ⟨liftPM_disk_throttled _ now pm h, liftPM_disk_throttled _ now pm h,
      liftPM_disk_throttled _ now pm h⟩
  · intro s s' hcs h hop
    exact liftPM_disk_open _ now pm s s' hcs h hop

/-- C5 witness: the amended theorem at a concrete manager with a closed
throttle (now 105, last save 100) and one with an open throttle (now 50,
last save 0). -/
theorem c5_witness :
    (105 - exPMThrottled.last_save_time < exPMThrottled.auto_save_interval) ∧
    ((complete_task 105 "a" "pw" 5 Option.none Option.none Option.none
        Option.none Option.none exPMThrottled).1.disk = exPMThrottled.disk ∧
      (fail_task 105 "a" "e" exPMThrottled).1.disk = exPMThrottled.disk ∧
      (skip_task 105 "a" "r" exPMThrottled).1.disk = exPMThrottled.disk) ∧
    (exPMOpen.auto_save_interval ≤ 50 - exPMOpen.last_save_time) ∧
    ((complete_task 50 "a" "pw" 5 Option.none Option.none Option.none
        Option.none Option.none exPMOpen).1.disk =
      diskSet exPMOpen.disk exCompleted50.session_id
        (FileContent.doc exCompleted50.to_dict)) :=
  ⟨by show (105 : ℚ) - 100 < 10; norm_num,
   (c5_terminal_saves_throttled exPMThrottled 105 "a" "pw" "e" "r" 5
      Option.none Option.none Option.none Option.none Option.none).1
     (by show (105 : ℚ) - 100 < 10; norm_num),
   by show (10 : ℚ) ≤ 50 - 0; norm_num,
   (c5_terminal_saves_throttled exPMOpen 50 "a" "pw" "e" "r" 5
      Option.none Option.none Option.none Option.none Option.none).2
     exInit1 exCompleted50 rfl (by show (10 : ℚ) ≤ 50 - 0; norm_num) rfl⟩

/-- The temp path differs from the final progress-file path. -/
theorem session_tmp_ne (sid : String) : sid ≠ sid ++ ".tmp" := by
  intro h
  have hl := congrArg String.length h
  rw [String.length_append] at hl
  have h4 : ".tmp".length = 4 := rfl
  omega

/-- C6 counterexample: the save the source performs is a single direct
write onto the final path, and a half-written file IS observable there
mid-write — there is no write-temp-then-rename step (contrast: the
spec-modelled `atomic_save_ops` never exposes one). -/
theorem c6_counterexample :
    save_session_ops { current_session := some exSessionProcessing } =
      [FsOp.write "abc" exSessionProcessing.to_dict] ∧
    can_observe_half
      (save_session_ops { current_session := some exSessionProcessing })
      [] "abc" = true ∧
    can_observe_half (atomic_save_ops exSessionProcessing) [] "abc" = false :=
  ⟨rfl, by rfl, by rfl⟩

/-- C6 (amended): `save_session` writes the serialized session directly
onto the final path (one non-atomic write, no temp-then-rename), so a
concurrent reader or crash mid-write CAN observe a half-written progress
file — whereas the spec's write-temp-then-rename would never expose one at
the final path; the load half of the contract does hold: a missing,
half-written or otherwise corrupt file makes `load_session` return `None`
instead of raising. -/
theorem c6_save_load_contract :
    (∀ (pm : PM) (s : BatchProgress), pm.current_session = some s →
      ∀ d : Disk, can_observe_half (save_session_ops pm) d s.session_id = true) ∧
    (∀ (s : BatchProgress) (d : Disk),
      (∀ v, diskGet d s.session_id ≠ some (FileContent.halfDoc v)) →
      can_observe_half (atomic_save_ops s) d s.session_id = false) ∧
    (∀ (d : Disk) (id : String) (v : PyVal),
      diskGet d id = some (FileContent.halfDoc v) →
      load_session d id = Option.none) ∧
    (∀ (d : Disk) (id : String),
      diskGet d id = Option.none → load_session d id = Option.none) := by
  refine ⟨?_, ?_, ?_, ?_⟩
  · intro pm s hcs d
    unfold save_session_ops
    rw [hcs]
    unfold can_observe_half observable_states
    rw [List.any_eq_true]
    refine ⟨diskSet d s.session_id (FileContent.halfDoc s.to_dict), ?_, ?_⟩
    · simp
    · rw [diskGet_set_self]
  · intro s d hnot
    have hne := session_tmp_ne s.session_id
    unfold atomic_save_ops can_observe_half observable_states
      observable_states observable_states
    rw [List.any_eq_false]
    intro d' hd'
    simp only [Bool.not_eq_true]
    simp only [List.mem_cons, List.not_mem_nil, or_false] at hd'
    rcases hd' with h1 | h2 | h3 | h4
    · subst h1
      cases hv : diskGet d' s.session_id with
      | none => rfl
      | some c =>
        cases c with
        | doc v => rfl
        | halfDoc v => exact absurd hv (hnot v)
    · subst h2
      show (match diskGet (diskSet d (s.session_id ++ ".tmp")
        (FileContent.halfDoc s.to_dict)) s.session_id with
        | some (FileContent.halfDoc _) => true
        | _ => false) = false
      rw [diskGet_set_ne d _ _ _ hne]
      cases hv : diskGet d s.session_id with
      | none => rfl
      | some c =>
        cases c with
        | doc v => rfl
        | halfDoc v => exact absurd hv (hnot v)
    · subst h3
      show (match diskGet (runFsOp d (FsOp.write (s.session_id ++ ".tmp")
        s.to_dict)) s.session_id with
        | some (FileContent.halfDoc _) => true
        | _ => false) = false
      unfold runFsOp
      dsimp only
      rw [diskGet_set_ne d _ _ _ hne]
      cases hv : diskGet d s.session_id with
      | none => rfl
      | some c =>
        cases c with
        | doc v => rfl
        | halfDoc v => exact absurd hv (hnot v)
    · subst h4
      show (match diskGet (runFsOp (runFsOp d (FsOp.write (s.session_id ++
        ".tmp") s.to_dict)) (FsOp.rename (s.session_id ++ ".tmp")
        s.session_id)) s.session_id with
        | some (FileContent.halfDoc _) => true
        | _ => false) = false
      unfold runFsOp
      dsimp only
      rw [diskGet_set_self]
      dsimp only
      rw [diskGet_set_self]
  · intro d id v h
    unfold load_session
    rw [h]
  · intro d id h
    unfold load_session
    rw [h]

/-- C6 witness: the amended theorem at a concrete manager, an empty
directory, and a concrete half-written file. -/
theorem c6_witness :
    ({ current_session := some exSessionProcessing } : PM).current_session =
      some exSessionProcessing ∧
    can_observe_half
      (save_session_ops { current_session := some exSessionProcessing })
      [] "abc" = true ∧
    (∀ v, diskGet ([] : Disk) "abc" ≠ some (FileContent.halfDoc v)) ∧
    can_observe_half (atomic_save_ops exSessionProcessing) [] "abc" = false ∧
    diskGet [("x", FileContent.halfDoc (PyVal.int 3))] "x" =
      some (FileContent.halfDoc (PyVal.int 3)) ∧
    load_session [("x", FileContent.halfDoc (PyVal.int 3))] "x" = Option.none :=
  ⟨rfl,
   c6_save_load_contract.1 { current_session := some exSessionProcessing }
     exSessionProcessing rfl [],
   fun v h => by simp [diskGet] at h,
   c6_save_load_contract.2.1 exSessionProcessing []
     (fun v h => by simp [diskGet] at h),
   rfl,
   c6_save_load_contract.2.2.1 [("x", FileContent.halfDoc (PyVal.int 3))] "x"
     (PyVal.int 3) rfl⟩

/-- C1 counterexample: an engine run that exits 0 with zero recovered
credentials observed — the spec's policy demands `Exhausted`, but
`step2_gpu_cracking` classifies by the exit code alone and reports
success (`Recovered`). -/
theorem c1_counterexample :
    step2_gpu_cracking_outcome 0 = (EngineOutcome.recovered, true) ∧
    spec_exit_policy 0 0 = EngineOutcome.exhausted ∧
    (step2_gpu_cracking_outcome 0).1 ≠ spec_exit_policy 0 0 := by
  refine ⟨rfl, rfl, by decide⟩

/-- C1 (amended): `step2_gpu_cracking` classifies by the exit code alone —
it agrees with the spec's policy on every non-zero code (1 → `Exhausted`,
anything else → `Crashed`) and on code 0 whenever something was in fact
recovered, but on code 0 it reports `Recovered` unconditionally, without
the recovered-count cross-check; `crack_single_hash` never reads the exit
code at all: its success is exactly "some result-sink read produced a
password". -/
theorem c1_exit_code_classification :
    (∀ (return_code : Int) (recovered_count : Nat), return_code ≠ 0 →
      (step2_gpu_cracking_outcome return_code).1 =
        spec_exit_policy return_code recovered_count) ∧
    (∀ recovered_count : Nat, 0 < recovered_count →
      (step2_gpu_cracking_outcome 0).1 = spec_exit_policy 0 recovered_count) ∧
    ((step2_gpu_cracking_outcome 0).1 = EngineOutcome.recovered) ∧
    (∀ pot_reads : List (Option String),
      (crack_single_hash_outcome pot_reads).1 =
        pot_reads.any (fun o => o.isSome)) := by
  refine ⟨?_, ?_, rfl, ?_⟩
  · intro rc n h
    unfold step2_gpu_cracking_outcome spec_exit_policy
    rw [if_neg h, if_neg h]
    by_cases h1 : rc = 1 <;> simp [h1]
  · intro n h
    unfold step2_gpu_cracking_outcome spec_exit_policy
    simp [h]
  · intro pots
    induction pots with
    | nil => rfl
    | cons o rest ih =>
      cases o with
      | none => simpa [crack_single_hash_outcome] using ih
      | some pw => simp [crack_single_hash_outcome]

/-- C1 witness: the amended theorem at exit codes 2 and 0 (with one
recovered credential) and a concrete result-sink trace. -/
theorem c1_witness :
    ((2 : Int) ≠ 0 ∧
      (step2_gpu_cracking_outcome 2).1 = spec_exit_policy 2 0) ∧
    (0 < 1 ∧ (step2_gpu_cracking_outcome 0).1 = spec_exit_policy 0 1) ∧
    (crack_single_hash_outcome [Option.none, some "pw"]).1 =
      [Option.none, some "pw"].any (fun o => o.isSome) :=
  ⟨⟨by decide, c1_exit_code_classification.1 2 0 (by decide)⟩,
   ⟨by decide, c1_exit_code_classification.2.1 1 (by decide)⟩,
   c1_exit_code_classification.2.2.2 [Option.none, some "pw"]⟩

/-- A line without an opening brace has no structured payload. -/
theorem dropToBrace_none (cs : List Char)
    (h : cs.all (fun c => c ≠ lbraceChar) = true) :
    dropToBrace cs = Option.none := by
  induction cs with
  | nil => rfl
  | cons c rest ih =>
    rw [List.all_cons, Bool.and_eq_true] at h
    unfold dropToBrace
    rw [if_neg (of_decide_eq_true h.1)]
    exact ih h.2

/-- C7: the status line decoder is total by construction and never raises;
any line with no `{` at all decodes to `None`; a line whose candidate
payload is cut off mid-JSON decodes to `None`; a valid payload behind a
log prefix yields the snapshot with progress numerator 10, denominator
100 and recovered count 0 (all absent counters defaulted to zero); and a
device entry with no `speed`/`temp`/`util` keys gets all three defaulted
to zero. -/
theorem c7_parse_status_contract :
    (∀ line : String, line.toList.all (fun c => c ≠ lbraceChar) = true →
      parse_hashcat_status line = Option.none) ∧
    (parse_hashcat_status "x \x7b\"progress\": " = Option.none) ∧
    (parse_hashcat_status
        "prefix \x7b\"progress\":[10,100],\"recovered\":[0,0]\x7d" =
      some { session := PyVal.str "", status := PyVal.int 0
           , target := PyVal.str ""
           , progress := PyVal.list [PyVal.int 10, PyVal.int 100]
           , restore_point := PyVal.int 0
           , recovered_hashes := PyVal.list [PyVal.int 0, PyVal.int 0]
           , recovered_salts := PyVal.list [PyVal.int 0, PyVal.int 0]
           , rejected := PyVal.int 0, devices := PyVal.list []
           , time_start := PyVal.int 0, estimated_stop := PyVal.int 0
           , speed := Option.none, temp := Option.none
           , util := Option.none }) ∧
    (parse_hashcat_status "\x7b\"devices\":[\x7b\x7d]\x7d" =
      some { session := PyVal.str "", status := PyVal.int 0
           , target := PyVal.str ""
           , progress := PyVal.list [PyVal.int 0, PyVal.int 0]
           , restore_point := PyVal.int 0
           , recovered_hashes := PyVal.list [PyVal.int 0, PyVal.int 0]
           , recovered_salts := PyVal.list [PyVal.int 0, PyVal.int 0]
           , rejected := PyVal.int 0
           , devices := PyVal.list [PyVal.dict []]
           , time_start := PyVal.int 0, estimated_stop := PyVal.int 0
           , speed := some (PyVal.int 0), temp := some (PyVal.int 0)
           , util := some (PyVal.int 0) }) := by
  refine ⟨?_, by rfl, by rfl, by rfl⟩
  intro line h
  unfold parse_hashcat_status
  rw [dropToBrace_none _ h]

/-- C7 witness: the quantified clause applied to the concrete line
`"garbage text"`. -/
theorem c7_witness :
    ("garbage text".toList.all (fun c => c ≠ lbraceChar) = true) ∧
    parse_hashcat_status "garbage text" = Option.none :=
  ⟨by decide, c7_parse_status_contract.1 "garbage text" (by decide)⟩

/-- C8: worker-pool fault isolation — an exception in the extraction
payload is caught at the worker boundary and becomes a structured failure
outcome carrying `str(e)` (`extraction_success = false`,
`extraction_error = some e`); the worker is a total function, so nothing
propagates; the pool yields exactly one outcome per task, outcome `i`
being a function of task `i` alone — changing the payload's behaviour on
one task leaves every other outcome unchanged. -/
theorem c8_worker_fault_isolation :
    ∀ (extract : String → String →
        Except String (String × String × String × String))
      (fsize : String → Except String Int),
      (∀ uuid path password e, extract path password = Except.error e →
        extract_worker extract fsize (uuid, path, password) =
          extract_failure fsize uuid path password e ∧
        (extract_worker extract fsize (uuid, path, password)).extraction_success
          = false ∧
        (extract_worker extract fsize (uuid, path, password)).extraction_error
          = some e) ∧
      (∀ cracked keystore_map,
        (process_all_results_parallel extract fsize cracked keystore_map).length
          = (build_tasks cracked keystore_map).length ∧
        ∀ i : Nat,
          (process_all_results_parallel extract fsize cracked keystore_map)[i]?
            = ((build_tasks cracked keystore_map)[i]?).map
                (extract_worker extract fsize)) ∧
      (∀ (extract₂ : String → String →
          Except String (String × String × String × String))
        (tasks : List (String × String × String)) (i : Nat),
        (∀ j (hj : j < tasks.length), j ≠ i →
          extract (tasks.get ⟨j, hj⟩).2.1 (tasks.get ⟨j, hj⟩).2.2 =
            extract₂ (tasks.get ⟨j, hj⟩).2.1 (tasks.get ⟨j, hj⟩).2.2) →
        ∀ j, j ≠ i →
          (tasks.map (extract_worker extract fsize))[j]? =
            (tasks.map (extract_worker extract₂ fsize))[j]?) := by
  intro extract fsize
  refine ⟨?_, ?_, ?_⟩
  · intro uuid path password e h
    refine ⟨?_, ?_, ?_⟩
    · unfold extract_worker
      dsimp only
      rw [h]
    · unfold extract_worker
      dsimp only
      rw [h]
      rfl
    · unfold extract_worker
      dsimp only
      rw [h]
      rfl
  · intro cracked keystore_map
    refine ⟨by simp [process_all_results_parallel], ?_⟩
    intro i
    simp [process_all_results_parallel, List.getElem?_map]
  · intro extract₂ tasks i hagree j hj
    rw [List.getElem?_map, List.getElem?_map]
    cases ht : tasks[j]? with
    | none => rfl
    | some a =>
      have hlt : j < tasks.length := by
        by_contra hge
        rw [List.getElem?_eq_none (by omega)] at ht
        exact Option.noConfusion ht
      have ha : tasks.get ⟨j, hlt⟩ = a := by
        have := List.getElem?_eq_getElem hlt
        rw [ht] at this
        exact (Option.some.injEq _ _).mp this.symm
      have he : extract a.2.1 a.2.2 = extract₂ a.2.1 a.2.2 := by
        rw [← ha]
        exact hagree j hlt hj
      show some (extract_worker extract fsize a) =
        some (extract_worker extract₂ fsize a)
      unfold extract_worker
      dsimp only
      rw [he]

/-- C8 witness: the theorem applied to a payload that raises on target
`a`, a payload that succeeds there, and two tasks: task 0's failure is
converted into a structured outcome and task 1's outcome is unchanged
across the two payloads. -/
theorem c8_witness :
    ((fun p _ => Except.error (String.append "boom " p) : String → String →
        Except String (String × String × String × String)) "a" "1" =
      Except.error "boom a") ∧
    (extract_worker (fun p _ => Except.error (String.append "boom " p))
        (fun _ => Except.ok 7) ("u", "a", "1") =
      extract_failure (fun _ => Except.ok 7) "u" "a" "1" "boom a" ∧
      (extract_worker (fun p _ => Except.error (String.append "boom " p))
        (fun _ => Except.ok 7) ("u", "a", "1")).extraction_success = false ∧
      (extract_worker (fun p _ => Except.error (String.append "boom " p))
        (fun _ => Except.ok 7) ("u", "a", "1")).extraction_error =
        some "boom a") ∧
    (([("u", "a", "1"), ("v", "b", "2")].map
        (extract_worker (fun p _ => Except.error (String.append "boom " p))
          (fun _ => Except.ok 7)))[1]? =
      ([("u", "a", "1"), ("v", "b", "2")].map
        (extract_worker
          (fun p w => if p = "a" then Except.ok ("k", "m", "s", "J")
            else Except.error (String.append "boom " p))
          (fun _ => Except.ok 7)))[1]?) :=
  ⟨by rfl,
   (c8_worker_fault_isolation (fun p _ =>
      Except.error (String.append "boom " p)) (fun _ => Except.ok 7)).1
     "u" "a" "1" "boom a" (by rfl),
   (c8_worker_fault_isolation (fun p _ =>
      Except.error (String.append "boom " p)) (fun _ => Except.ok 7)).2.2
     (fun p w => if p = "a" then Except.ok ("k", "m", "s", "J")
       else Except.error (String.append "boom " p))
     [("u", "a", "1"), ("v", "b", "2")] 0
     (by
       intro j hj hne
       have hj1 : j = 1 := by
         simp only [List.length_cons, List.length_nil] at hj
         omega
       subst hj1
       rfl)
     1 (by decide)⟩
